import Mathlib

/-!
Shallow embedding of the trend-signal resolution pipeline of
`src/server.ts` (the route `GET /api/trending/search` together with the
helper `fetchRealTrends`), and theorems checking the specification's
claims about it.

Conventions of the embedding:
* JS numbers that the code keeps integral are modelled as `Int`; quantities
  that may become fractional (the merged `search_volume`, numbers produced
  by the generative provider) are modelled as `ℚ`.
* A JS `x || d` treats `undefined`, `null` and `0` as falsy for numbers,
  additionally `""` for strings, while an empty array is truthy.  The
  helpers `jsOrI`, `jsOrQ`, `jsOrS` spell this out; for arrays `Option.getD`
  is already exact.
* Dates are day numbers (`Int`); `last_updated` timestamps are seconds
  (`Int`), so the 10-minute freshness window is 600.
* The external world of one request (query parameter, SQLite table contents,
  outcome of the Google-Trends fetch, outcome of the Gemini call, whether
  either `INSERT OR REPLACE` throws, the `Math.random` draws) is an `Env`
  record; the handler itself is the pure function `resolve`, which also
  reports which effects happened (`storeRead`, `signalCalled`,
  `enrichCalled`, `written`, `finalStore`).
-/

/-- One point of a trend time series: `{date, value}`. -/
structure HistPoint where
  date : Int
  value : Int
  deriving Repr, DecidableEq

/-- Successful payload of `fetchRealTrends` (the Signal Provider adapter). -/
structure SignalResult where
  momentum_score : Int
  search_volume : Int
  related : List String
  history : List HistPoint
  deriving Repr, DecidableEq

/-- Parsed Gemini JSON (`aiData`).  Every field is optional: the code reads
each one defensively with `||` defaults. -/
structure AiData where
  category : Option String := none
  momentum_score : Option ℚ := none
  search_volume : Option ℚ := none
  pinterest_volume : Option ℚ := none
  pinterest_related : Option (List String) := none
  related : Option (List String) := none
  history : Option (List HistPoint) := none
  deriving Repr, DecidableEq

/-- The trend-record fields shared by the stored row and the served JSON. -/
structure TrendCore where
  keyword : String
  source : String
  category : String
  momentum_score : ℚ
  search_volume : ℚ
  related_keywords : List String
  historical_data : List HistPoint
  deriving Repr, DecidableEq

/-- A row of the `trending_keywords` table. -/
structure StoredRecord where
  core : TrendCore
  last_updated : Int
  deriving Repr, DecidableEq

/-- The JSON body served to the caller.  The fallback branch serves an object
without a `last_updated` column, hence the `Option`. -/
structure ServedRecord where
  core : TrendCore
  last_updated : Option Int
  deriving Repr, DecidableEq

/-- The `trending_keywords` table (`keyword` is a UNIQUE column). -/
def Store := List StoredRecord
  deriving Repr, DecidableEq

/-- Model of `SELECT * FROM trending_keywords WHERE keyword = ?` — exact
match on the raw key. -/
def dbGet (s : Store) (k : String) : Option StoredRecord :=
  List.find? (fun r => r.core.keyword == k) s

/-- Model of `INSERT OR REPLACE INTO trending_keywords ...` — drop any row
with the same key, insert the new one. -/
def dbPut (s : Store) (row : StoredRecord) : Store :=
  row :: List.filter (fun r => r.core.keyword != row.core.keyword) s

/-- JS `x || d` on an integer: `undefined`/`null`/`0` fall back to `d`. -/
def jsOrI (x : Option Int) (d : Int) : Int :=
  match x with
  | some v => if v = 0 then d else v
  | none => d

/-- JS `x || d` on a number: `undefined`/`null`/`0` fall back to `d`. -/
def jsOrQ (x : Option ℚ) (d : ℚ) : ℚ :=
  match x with
  | some v => if v = 0 then d else v
  | none => d

/-- JS `x || d` on a string: `undefined`/`null`/`""` fall back to `d`. -/
def jsOrS (x : Option String) (d : String) : String :=
  match x with
  | some v => if v = "" then d else v
  | none => d

/-- JS array indexing `l[i]`: out-of-range (including negative) gives
`undefined`. -/
def jsIndex (l : List HistPoint) (i : Int) : Option HistPoint :=
  if 0 ≤ i then l[i.toNat]? else none

/-- Model of `fetchRealTrends` (src/server.ts lines 161-196).  `ok` models the two
Google-Trends transport/parse steps succeeding; `timeline` is the parsed
`timelineData` (already mapped to `{date, value}`); `ranked` is
`rankedList[0]?.rankedKeyword.map(k => k.query)` (`none` when `rankedList`
is empty, which the code turns into `[]` via `|| []`).  `Math.round` is
omitted because every quantity it is applied to is already an integer. -/
def fetchRealTrends (ok : Bool) (timeline : List HistPoint)
    (ranked : Option (List String)) : Option SignalResult :=
  if ok then
    let history := timeline
    let lastPoint := jsOrI (Option.map HistPoint.value
      (jsIndex history ((history.length : Int) - 1))) 0
    let prevPoint := jsOrI (Option.map HistPoint.value
      (jsIndex history ((history.length : Int) - 2))) 0
    let momentum := min 100 (max 0 (50 + (lastPoint - prevPoint) * 2))
    some { momentum_score := momentum
         , search_volume := lastPoint * 1000
         , related := (Option.map (fun l => List.take 5 l) ranked).getD []
         , history := history }
  else none

/-- Model of `[...new Set(l)]` — deduplicate, keeping the first occurrence of each
element in order. -/
def jsSetDedup : List String → List String
  | [] => []
  | x :: xs => x :: jsSetDedup (List.filter (fun y => y != x) xs)
termination_by l => l.length
decreasing_by
  simp only [List.length_cons]
  exact Nat.lt_succ_of_le (List.length_filter_le _ _)

/-- The merged object `finalData` (src/server.ts lines 252-258). -/
structure FinalData where
  category : String
  momentum_score : ℚ
  search_volume : ℚ
  related : List String
  history : List HistPoint
  deriving Repr, DecidableEq

/-- The merge step (src/server.ts lines 252-258): `realData` is the Signal
outcome, `ai` the parsed Gemini JSON. -/
def mergeFinal (realData : Option SignalResult) (ai : AiData) : FinalData :=
  { category := jsOrS ai.category "General"
  , momentum_score :=
      match realData with
      | some s => (s.momentum_score : ℚ)
      | none => jsOrQ ai.momentum_score 50
  , search_volume :=
      match realData with
      | some s => ((s.search_volume : ℚ) + jsOrQ ai.pinterest_volume 0) / 2
      | none => jsOrQ ai.search_volume 1000
  , related :=
      match realData with
      | some s => List.take 8 (jsSetDedup (s.related ++ ai.pinterest_related.getD []))
      | none => ai.related.getD []
  , history :=
      match realData with
      | some s => s.history
      | none => ai.history.getD [] }

/-- The provenance tag written by the merge-path persist (line 265):
`realData ? "Google Trends + AI" : "Trends AI"`. -/
def sourceTag (realData : Option SignalResult) : String :=
  match realData with
  | some _ => "Google Trends + AI"
  | none => "Trends AI"

/-- The complete record built and persisted by the merge path. -/
def mergedCore (q : String) (realData : Option SignalResult) (ai : AiData) :
    TrendCore :=
  { keyword := q
  , source := sourceTag realData
  , category := (mergeFinal realData ai).category
  , momentum_score := (mergeFinal realData ai).momentum_score
  , search_volume := (mergeFinal realData ai).search_volume
  , related_keywords := (mergeFinal realData ai).related
  , historical_data := (mergeFinal realData ai).history }

/-- The five fallback related keywords (line 300), verbatim templates. -/
def fallbackRelated (q : String) : List String :=
  [q ++ " ideas", q ++ " aesthetic", "best " ++ q, q ++ " diy", q ++ " trends"]

/-- Model of `mockHistory` (lines 285-292): 7 points, day `today - (6 - i)` for
`i = 0..6`, each value `40 + Math.floor(Math.random() * 60)`; `rnd i` models
the `i`-th `Math.floor(Math.random() * 60)` draw. -/
def mockHistory (today : Int) (rnd : Nat → Nat) : List HistPoint :=
  List.map (fun (i : Nat) => { date := today - (6 - (i : Int)), value := 40 + (rnd i : Int) })
    (List.range 7)

/-- Model of `fallbackData` (lines 294-302) minus the wire-format plumbing. -/
def fallbackCore (q : String) (today : Int) (rnd : Nat → Nat) : TrendCore :=
  { keyword := q
  , source := "Fallback"
  , category := "General"
  , momentum_score := 72
  , search_volume := 12500
  , related_keywords := fallbackRelated q
  , historical_data := mockHistory today rnd }

/-- The external world of one `GET /api/trending/search` request. -/
structure Env where
  /-- Model of `datetime('now')` in seconds. -/
  now : Int
  /-- today's day number, for `mockHistory` dates. -/
  today : Int
  /-- current contents of `trending_keywords`. -/
  store : Store
  /-- Value of `req.query.q` (`none` = parameter absent). -/
  q : Option String
  /-- outcome of `fetchRealTrends` (`none` = the adapter failed). -/
  signal : Option SignalResult
  /-- outcome of the Gemini call plus `JSON.parse` (`none` = it threw). -/
  enrich : Option AiData
  /-- whether the merge-path `INSERT OR REPLACE` throws. -/
  persistThrows : Bool
  /-- whether the fallback-path `INSERT OR REPLACE` throws. -/
  fbPersistThrows : Bool
  /-- the `Math.floor(Math.random() * 60)` draws used by `mockHistory`. -/
  fbRandom : Nat → Nat

/-- What one request did: HTTP result plus the observable effects. -/
structure Outcome where
  status : Nat
  error : Option String
  served : Option ServedRecord
  storeRead : Bool
  signalCalled : Bool
  enrichCalled : Bool
  written : Option StoredRecord
  finalStore : Store
  deriving Repr, DecidableEq

/-- Freshness check `last_updated > datetime('now', '-10 minutes')`. -/
def isFresh (now : Int) (r : StoredRecord) : Bool :=
  now - 600 < r.last_updated

/-- Serving a cached row returns it with its stored columns (the JSON text
columns are parsed back into lists, which the model holds natively). -/
def toServed (r : StoredRecord) : ServedRecord :=
  { core := r.core, last_updated := some r.last_updated }

/-- The 400 response for a missing or empty query (line 200). -/
def queryError (env : Env) : Outcome :=
  { status := 400, error := some "Query required", served := none
  , storeRead := false, signalCalled := false, enrichCalled := false
  , written := none, finalStore := env.store }

/-- The catch branch (lines 280-323): synthesize `fallbackData`, try to
persist it inside its own try/catch, and serve `fallbackData` either way. -/
def fallbackFlow (env : Env) (q : String) : Outcome :=
  let core := fallbackCore q env.today env.fbRandom
  if env.fbPersistThrows then
    { status := 200, error := none
    , served := some { core := core, last_updated := none }
    , storeRead := true, signalCalled := true, enrichCalled := true
    , written := none, finalStore := env.store }
  else
    let row : StoredRecord := { core := core, last_updated := env.now }
    { status := 200, error := none
    , served := some { core := core, last_updated := none }
    , storeRead := true, signalCalled := true, enrichCalled := true
    , written := some row, finalStore := dbPut env.store row }

/-- The cache-miss flow (lines 216-323): fetch Signal (outcome `env.signal`),
then the try block — Gemini, merge, persist, respond — whose failure at the
Gemini/parse step (`env.enrich = none`) or at the persist
(`env.persistThrows`) falls through to `fallbackFlow`. -/
def missFlow (env : Env) (q : String) : Outcome :=
  match env.enrich with
  | none => fallbackFlow env q
  | some ai =>
    if env.persistThrows then fallbackFlow env q
    else
      let row : StoredRecord := { core := mergedCore q env.signal ai
                                , last_updated := env.now }
      { status := 200, error := none
      , served := some { core := row.core, last_updated := some env.now }
      , storeRead := true, signalCalled := true, enrichCalled := true
      , written := some row, finalStore := dbPut env.store row }

/-- The handler of `GET /api/trending/search` (lines 198-324). -/
def resolve (env : Env) : Outcome :=
  match env.q with
  | none => queryError env
  | some q =>
    if q = "" then queryError env
    else
      match Option.filter (fun r => isFresh env.now r) (dbGet env.store q) with
      | some r =>
        { status := 200, error := none, served := some (toServed r)
        , storeRead := true, signalCalled := false, enrichCalled := false
        , written := none, finalStore := env.store }
      | none => missFlow env q

/-- Spec-side reading of "lastValue" with a missing sample treated as 0. -/
def specLastValue (h : List HistPoint) : Int :=
  match h.getLast? with
  | some p => p.value
  | none => 0

/-- Spec-side reading of "secondToLastValue" with a missing sample treated
as 0. -/
def specSecondLastValue (h : List HistPoint) : Int :=
  match h.dropLast.getLast? with
  | some p => p.value
  | none => 0

/-! ### Helper lemmas -/

theorem jsOrI_some_zero (v : Int) : jsOrI (some v) 0 = v := by
  by_cases h : v = 0 <;> simp [jsOrI, h]

theorem mem_of_mem_jsSetDedup {y : String} :
    ∀ {l : List String}, y ∈ jsSetDedup l → y ∈ l := by
  intro l
  induction l using jsSetDedup.induct with
  | case1 => simp [jsSetDedup]
  | case2 x xs ih =>
    intro hy
    rw [jsSetDedup] at hy
    rcases List.mem_cons.mp hy with h | h
    · exact h ▸ List.mem_cons_self _ _
    · exact List.mem_cons_of_mem _ (List.mem_of_mem_filter (ih h))

theorem jsSetDedup_nodup : ∀ l : List String, (jsSetDedup l).Nodup := by
  intro l
  induction l using jsSetDedup.induct with
  | case1 => simp [jsSetDedup]
  | case2 x xs ih =>
    rw [jsSetDedup]
    refine List.nodup_cons.mpr ⟨fun hx => ?_, ih⟩
    have h := List.of_mem_filter (mem_of_mem_jsSetDedup hx)
    simp at h

theorem fallbackRelated_nodup (q : String) : (fallbackRelated q).Nodup := by
  have h6 : (" ideas" : String).length = 6 := rfl
  have h10 : (" aesthetic" : String).length = 10 := rfl
  have h5 : ("best " : String).length = 5 := rfl
  have h4 : (" diy" : String).length = 4 := rfl
  have h7 : (" trends" : String).length = 7 := rfl
  have hmap : ((fallbackRelated q).map String.length).Nodup := by
    simp only [fallbackRelated, List.map_cons, List.map_nil, String.length_append,
      h6, h10, h5, h4, h7, List.nodup_cons, List.mem_cons, List.not_mem_nil,
      List.mem_singleton, List.nodup_nil]
    push_neg
    simp only [not_false_iff, and_true, true_and]
    omega
  exact hmap.of_map _

theorem fallbackRelated_length (q : String) : (fallbackRelated q).length = 5 := rfl

theorem mockHistory_length (t : Int) (r : Nat → Nat) : (mockHistory t r).length = 7 := by
  simp [mockHistory]

theorem mockHistory_dates (t : Int) (r : Nat → Nat) :
    (mockHistory t r).map HistPoint.date
      = (List.range 7).map (fun i : Nat => t - (6 - (i : Int))) := by
  simp [mockHistory, List.map_map]

theorem mockHistory_values (t : Int) (r : Nat → Nat) (hr : ∀ i, r i < 60) :
    ∀ p ∈ mockHistory t r, 40 ≤ p.value ∧ p.value ≤ 100 := by
  intro p hp
  simp only [mockHistory, List.mem_map, List.mem_range] at hp
  obtain ⟨i, hi, rfl⟩ := hp
  have := hr i
  refine ⟨by simp, by simp; omega⟩

theorem resolve_miss (env : Env) (q : String) (hq : env.q = some q) (hne : q ≠ "")
    (hmiss : Option.filter (fun r => isFresh env.now r) (dbGet env.store q) = none) :
    resolve env = missFlow env q := by
  unfold resolve
  rw [hq]
  simp only [hne, if_false, hmiss]

theorem jsLast_eq_specLast (tl : List HistPoint) :
    jsOrI (Option.map HistPoint.value (jsIndex tl ((tl.length : Int) - 1))) 0
      = specLastValue tl := by
  cases tl with
  | nil => simp [jsIndex, specLastValue, jsOrI]
  | cons a as =>
    have hpos : (0 : Int) ≤ (((a :: as).length : Int) - 1) := by
      simp only [List.length_cons]
      omega
    rw [jsIndex, if_pos hpos]
    have htoNat : ((((a :: as).length : Int)) - 1).toNat = (a :: as).length - 1 := by
      omega
    rw [htoNat, ← List.getLast?_eq_getElem?]
    cases h : (a :: as).getLast? with
    | none => exact absurd (List.getLast?_eq_none_iff.mp h) (by simp)
    | some p => simp [specLastValue, h, jsOrI_some_zero]

theorem dropLast_getLast?_eq (l : List HistPoint) (hl : 2 ≤ l.length) :
    l.dropLast.getLast? = l[l.length - 2]? := by
  rw [List.getLast?_eq_getElem?, List.length_dropLast, List.dropLast_eq_take,
    List.getElem?_take, if_pos (by omega)]
  congr 1

theorem jsPrev_eq_specSecondLast (tl : List HistPoint) :
    jsOrI (Option.map HistPoint.value (jsIndex tl ((tl.length : Int) - 2))) 0
      = specSecondLastValue tl := by
  match tl with
  | [] => simp [jsIndex, specSecondLastValue, jsOrI]
  | [a] => simp [jsIndex, specSecondLastValue, jsOrI]
  | a :: b :: rest =>
    have hl : 2 ≤ (a :: b :: rest).length := by
      simp only [List.length_cons]
      omega
    have hpos : (0 : Int) ≤ (((a :: b :: rest).length : Int) - 2) := by
      simp only [List.length_cons]
      push_cast
      omega
    rw [jsIndex, if_pos hpos]
    have htoNat : ((((a :: b :: rest).length : Int)) - 2).toNat
        = (a :: b :: rest).length - 2 := by omega
    rw [htoNat, specSecondLastValue.eq_def, dropLast_getLast?_eq _ hl]
    cases h : (a :: b :: rest)[(a :: b :: rest).length - 2]? with
    | none =>
      have := List.getElem?_eq_none_iff.mp h
      omega
    | some p => simp [h, jsOrI_some_zero]

/-! ### Claim theorems -/

/-- C7 (confirmed): for every successful fetch of the Signal Provider
(`fetchRealTrends`), the returned `momentum_score` equals
`clamp(0, 100, 50 + 2 * (lastValue - secondToLastValue))` over the final two
time-series samples, where a missing sample (series shorter than 2 points)
counts as value 0, and the result is integer-valued in [0, 100]. -/
theorem C7_signal_momentum_formula (ok : Bool) (timeline : List HistPoint)
    (ranked : Option (List String)) (r : SignalResult)
    (h : fetchRealTrends ok timeline ranked = some r) :
    r.momentum_score
        = min 100 (max 0
            (50 + 2 * (specLastValue timeline - specSecondLastValue timeline)))
      ∧ 0 ≤ r.momentum_score ∧ r.momentum_score ≤ 100 := by
  cases ok with
  | false => simp [fetchRealTrends] at h
  | true =>
    simp only [fetchRealTrends, if_true] at h
    rw [Option.some.injEq] at h
    subst h
    simp only
    rw [jsLast_eq_specLast, jsPrev_eq_specSecondLast]
    omega

/-- Concrete two-point timeline: interest 10 then 30. -/
def tl0 : List HistPoint := [{ date := 0, value := 10 }, { date := 1, value := 30 }]

/-- The signal result `fetchRealTrends` computes on `tl0` with no related
list: slope 20 gives momentum 90, last value 30 gives volume 30000. -/
def sigW : SignalResult :=
  { momentum_score := 90, search_volume := 30000, related := [], history := tl0 }

/-- Witness for C7 at the concrete fetch on `tl0`. -/
theorem C7_signal_momentum_formula_witness :
    sigW.momentum_score
        = min 100 (max 0 (50 + 2 * (specLastValue tl0 - specSecondLastValue tl0)))
      ∧ 0 ≤ sigW.momentum_score ∧ sigW.momentum_score ≤ 100 :=
  C7_signal_momentum_formula true tl0 none sigW (by decide)

/-- C10 (confirmed): a request whose `q` parameter is absent or empty gets the
400 "Query required" response immediately: no store read or write, no Signal
or Enrichment call, store unchanged. -/
theorem C10_empty_query_rejected (env : Env)
    (h : env.q = none ∨ env.q = some "") :
    resolve env = { status := 400, error := some "Query required", served := none
                  , storeRead := false, signalCalled := false, enrichCalled := false
                  , written := none, finalStore := env.store } := by
  rcases h with h | h
  · unfold resolve
    rw [h]
    rfl
  · unfold resolve
    rw [h]
    simp [queryError]

/-- A request with the query parameter absent. -/
def env10 : Env :=
  { now := 0, today := 0, store := [], q := none, signal := none, enrich := none
  , persistThrows := false, fbPersistThrows := false, fbRandom := fun _ => 0 }

/-- Witness for C10 at a concrete absent-query request. -/
theorem C10_empty_query_rejected_witness :
    resolve env10 = { status := 400, error := some "Query required", served := none
                    , storeRead := false, signalCalled := false, enrichCalled := false
                    , written := none, finalStore := env10.store } :=
  C10_empty_query_rejected env10 (Or.inl rfl)

/-- C4 (confirmed): if the store has an entry under the queried keyword whose
`last_updated` is less than 10 minutes (600 s) old, the request serves exactly
that record (same source, same `last_updated`, same field values), calls
neither provider, and writes nothing. -/
theorem C4_fresh_cache_hit (env : Env) (q : String) (r : StoredRecord)
    (hq : env.q = some q) (hne : q ≠ "")
    (hget : dbGet env.store q = some r)
    (hfresh : env.now - r.last_updated < 600) :
    resolve env = { status := 200, error := none, served := some (toServed r)
                  , storeRead := true, signalCalled := false, enrichCalled := false
                  , written := none, finalStore := env.store } := by
  unfold resolve
  rw [hq]
  have hf : isFresh env.now r = true := by
    simp only [isFresh, decide_eq_true_eq]
    omega
  simp [hne, hget, hf, Option.filter]

/-- A stored row for the keyword "decor", 100 s old at `env4.now`. -/
def row4 : StoredRecord :=
  { core := { keyword := "decor", source := "Trends AI", category := "General"
            , momentum_score := 50, search_volume := 1000
            , related_keywords := [], historical_data := [] }
  , last_updated := 900 }

/-- A request for "decor" finding the fresh `row4` in the store. -/
def env4 : Env :=
  { now := 1000, today := 0, store := [row4], q := some "decor", signal := none
  , enrich := none, persistThrows := false, fbPersistThrows := false
  , fbRandom := fun _ => 0 }

/-- Witness for C4 at a concrete fresh-cache-hit request. -/
theorem C4_fresh_cache_hit_witness :
    resolve env4 = { status := 200, error := none, served := some (toServed row4)
                   , storeRead := true, signalCalled := false, enrichCalled := false
                   , written := none, finalStore := env4.store } :=
  C4_fresh_cache_hit env4 "decor" row4 rfl (by decide) (by decide) (by decide)

/-- C5 (confirmed): when the query misses the cache and both provider tiers
fail, the request still serves a complete record: momentum 72, volume 12500,
category "General", exactly the 5 deterministic keyword-derived related
keywords, and 7 history points dated one per day ending today with each value
a pseudo-random integer in [40, 100]. -/
theorem C5_fallback_totality (env : Env) (q : String)
    (hq : env.q = some q) (hne : q ≠ "")
    (hmiss : Option.filter (fun r => isFresh env.now r) (dbGet env.store q) = none)
    (_hsig : env.signal = none) (henr : env.enrich = none)
    (hrnd : ∀ i, env.fbRandom i < 60) :
    (resolve env).served
        = some { core := fallbackCore q env.today env.fbRandom, last_updated := none }
      ∧ (fallbackCore q env.today env.fbRandom).momentum_score = 72
      ∧ (fallbackCore q env.today env.fbRandom).search_volume = 12500
      ∧ (fallbackCore q env.today env.fbRandom).category = "General"
      ∧ (fallbackCore q env.today env.fbRandom).related_keywords = fallbackRelated q
      ∧ (fallbackRelated q).length = 5
      ∧ (fallbackCore q env.today env.fbRandom).historical_data.length = 7
      ∧ (fallbackCore q env.today env.fbRandom).historical_data.map HistPoint.date
          = (List.range 7).map (fun i : Nat => env.today - (6 - (i : Int)))
      ∧ ∀ p ∈ (fallbackCore q env.today env.fbRandom).historical_data,
          40 ≤ p.value ∧ p.value ≤ 100 := by
  have hres := resolve_miss env q hq hne hmiss
  rw [hres]
  unfold missFlow
  rw [henr]
  refine ⟨?_, rfl, rfl, rfl, rfl, fallbackRelated_length q, mockHistory_length _ _,
    mockHistory_dates _ _, mockHistory_values _ _ hrnd⟩
  unfold fallbackFlow
  by_cases hfb : env.fbPersistThrows <;> simp [hfb]

/-- A cache-missing request for "decor" with both providers failed. -/
def env5 : Env :=
  { now := 1000, today := 0, store := [], q := some "decor", signal := none
  , enrich := none, persistThrows := false, fbPersistThrows := false
  , fbRandom := fun _ => 0 }

/-- Witness for C5 at a concrete both-tiers-failed request. -/
theorem C5_fallback_totality_witness :
    (resolve env5).served
        = some { core := fallbackCore "decor" env5.today env5.fbRandom
               , last_updated := none }
      ∧ (fallbackCore "decor" env5.today env5.fbRandom).momentum_score = 72
      ∧ (fallbackCore "decor" env5.today env5.fbRandom).search_volume = 12500
      ∧ (fallbackCore "decor" env5.today env5.fbRandom).category = "General"
      ∧ (fallbackCore "decor" env5.today env5.fbRandom).related_keywords
          = fallbackRelated "decor"
      ∧ (fallbackRelated "decor").length = 5
      ∧ (fallbackCore "decor" env5.today env5.fbRandom).historical_data.length = 7
      ∧ (fallbackCore "decor" env5.today env5.fbRandom).historical_data.map HistPoint.date
          = (List.range 7).map (fun i : Nat => env5.today - (6 - (i : Int)))
      ∧ ∀ p ∈ (fallbackCore "decor" env5.today env5.fbRandom).historical_data,
          40 ≤ p.value ∧ p.value ≤ 100 :=
  C5_fallback_totality env5 "decor" rfl (by decide) (by decide) rfl rfl
    (fun i => (by norm_num : (0 : Nat) < 60))

/-- Serving from the cache: the branch taken when the freshness-gated lookup
finds a row. -/
theorem resolve_hit (env : Env) (q : String) (r : StoredRecord)
    (hq : env.q = some q) (hne : q ≠ "")
    (hfl : Option.filter (fun r => isFresh env.now r) (dbGet env.store q) = some r) :
    resolve env = { status := 200, error := none, served := some (toServed r)
                  , storeRead := true, signalCalled := false, enrichCalled := false
                  , written := none, finalStore := env.store } := by
  unfold resolve
  rw [hq]
  simp only [hne, if_false, hfl]

/-- Anything the pipeline writes is either the merge-path row or the
fallback row, always keyed by the raw query string. -/
theorem resolve_written_shape (env : Env) (q : String) (hq : env.q = some q)
    (row : StoredRecord) (hw : (resolve env).written = some row) :
    (∃ ai, env.enrich = some ai ∧ env.persistThrows = false
        ∧ row = { core := mergedCore q env.signal ai, last_updated := env.now })
      ∨ ((env.enrich = none ∨ env.persistThrows = true)
        ∧ env.fbPersistThrows = false
        ∧ row = { core := fallbackCore q env.today env.fbRandom
                , last_updated := env.now }) := by
  by_cases hne : q = ""
  · rw [show resolve env = queryError env by unfold resolve; rw [hq]; simp [hne]] at hw
    simp [queryError] at hw
  · cases hfl : Option.filter (fun r => isFresh env.now r) (dbGet env.store q) with
    | some r =>
      rw [resolve_hit env q r hq hne hfl] at hw
      simp at hw
    | none =>
      rw [resolve_miss env q hq hne hfl] at hw
      unfold missFlow at hw
      cases henr : env.enrich with
      | none =>
        simp only [henr] at hw
        unfold fallbackFlow at hw
        cases hfb : env.fbPersistThrows with
        | true =>
          simp only [hfb] at hw
          simp at hw
        | false =>
          simp only [hfb] at hw
          simp only [Bool.false_eq_true, if_false, Option.some.injEq] at hw
          exact Or.inr ⟨Or.inl rfl, rfl, hw.symm⟩
      | some ai =>
        simp only [henr] at hw
        cases hp : env.persistThrows with
        | true =>
          simp only [hp, if_true] at hw
          unfold fallbackFlow at hw
          cases hfb : env.fbPersistThrows with
          | true =>
            simp only [hfb] at hw
            simp at hw
          | false =>
            simp only [hfb] at hw
            simp only [Bool.false_eq_true, if_false, Option.some.injEq] at hw
            exact Or.inr ⟨Or.inr rfl, rfl, hw.symm⟩
        | false =>
          simp only [hp, Bool.false_eq_true, if_false, Option.some.injEq] at hw
          exact Or.inl ⟨ai, rfl, rfl, hw.symm⟩

/-- A successful Signal result: momentum 80, volume 5000 (the spec's
end-to-end scenario). -/
def sig1 : SignalResult :=
  { momentum_score := 80, search_volume := 5000, related := ["minimalist"]
  , history := tl0 }

/-- A steered-mode Gemini answer: category, pinterest volume and related. -/
def aiW : AiData :=
  { category := some "Home Decor", pinterest_volume := some 7000
  , pinterest_related := some ["decor ideas"] }

/-- A cache-missing request where both providers succeed. -/
def envW : Env :=
  { now := 1000, today := 0, store := [], q := some "minimalist decor"
  , signal := some sig1, enrich := some aiW
  , persistThrows := false, fbPersistThrows := false, fbRandom := fun _ => 0 }

/-- The row the merge path persists for `envW`. -/
def rowW : StoredRecord :=
  { core := mergedCore "minimalist decor" envW.signal aiW, last_updated := envW.now }

/-- A cache-missing request where Signal succeeds but the Gemini step
throws. -/
def envC2 : Env :=
  { now := 1000, today := 0, store := [], q := some "decor"
  , signal := some sig1, enrich := none
  , persistThrows := false, fbPersistThrows := false, fbRandom := fun _ => 0 }

/-- C1 counterexample: with the Signal Provider successful (`envC2.signal` is
`some sig1`) but the Enrichment step failed, the pipeline serves the fallback
record — momentum 72, volume 12500, source "Fallback" — contradicting "the
fallback record is never produced when a provider succeeds". -/
theorem C1_counterexample :
    envC2.signal.isSome = true
      ∧ Option.map (fun sr => sr.core.source) (resolve envC2).served
          = some "Fallback"
      ∧ Option.map (fun sr => sr.core.momentum_score) (resolve envC2).served
          = some 72
      ∧ Option.map (fun sr => sr.core.search_volume) (resolve envC2).served
          = some 12500 := by
  refine ⟨rfl, by decide, by decide, by decide⟩

/-- C1 (corrected): the fallback tier is skipped only when the Enrichment
step and the merge-path persist both succeed: then the served and persisted
record is the one produced by the Merge policy (tagged by the successful
tiers) and its source is never "Fallback".  A Signal-only success with a
failed Enrichment step does fall through to the fallback record. -/
theorem C1_merge_when_enrichment_succeeds (env : Env) (q : String) (ai : AiData)
    (hq : env.q = some q) (hne : q ≠ "")
    (hmiss : Option.filter (fun r => isFresh env.now r) (dbGet env.store q) = none)
    (henr : env.enrich = some ai) (hp : env.persistThrows = false) :
    (resolve env).served
        = some { core := mergedCore q env.signal ai, last_updated := some env.now }
      ∧ (resolve env).written
        = some { core := mergedCore q env.signal ai, last_updated := env.now }
      ∧ (mergedCore q env.signal ai).source ≠ "Fallback" := by
  rw [resolve_miss env q hq hne hmiss]
  unfold missFlow
  simp only [henr, hp, Bool.false_eq_true, if_false]
  refine ⟨trivial, trivial, ?_⟩
  have hsrc : (mergedCore q env.signal ai).source = sourceTag env.signal := rfl
  rw [hsrc]
  cases env.signal with
  | none => simp [sourceTag]
  | some s => simp [sourceTag]

/-- Witness for C1 at the concrete both-providers-succeed request. -/
theorem C1_merge_when_enrichment_succeeds_witness :
    (resolve envW).served
        = some { core := mergedCore "minimalist decor" envW.signal aiW
               , last_updated := some envW.now }
      ∧ (resolve envW).written
        = some { core := mergedCore "minimalist decor" envW.signal aiW
               , last_updated := envW.now }
      ∧ (mergedCore "minimalist decor" envW.signal aiW).source ≠ "Fallback" :=
  C1_merge_when_enrichment_succeeds envW "minimalist decor" aiW rfl (by decide)
    (by decide) rfl rfl

/-- C2 counterexample: a resolution in which only the Signal tier succeeded
persists source "Fallback" — not the claimed "Signal" tag (no resolution ever
persists a Signal-only tag). -/
theorem C2_counterexample :
    envC2.signal.isSome = true ∧ envC2.enrich = none
      ∧ Option.map (fun r => r.core.source) (resolve envC2).written
          = some "Fallback"
      ∧ ("Fallback" : String) ≠ "Signal" := by
  refine ⟨rfl, rfl, by decide, by decide⟩

/-- C2 (corrected): every persisted record's source is exactly one of the
three tags the code uses — "Google Trends + AI" (both tiers present),
"Trends AI" (Enrichment only), "Fallback" (Enrichment failed or the
merge-path persist failed, regardless of Signal).  There is no Signal-only
tag. -/
theorem C2_source_trichotomy (env : Env) (q : String) (row : StoredRecord)
    (hq : env.q = some q) (hw : (resolve env).written = some row) :
    (row.core.source = "Google Trends + AI"
        ∧ env.signal.isSome = true ∧ env.enrich.isSome = true
        ∧ env.persistThrows = false)
      ∨ (row.core.source = "Trends AI"
        ∧ env.signal = none ∧ env.enrich.isSome = true
        ∧ env.persistThrows = false)
      ∨ (row.core.source = "Fallback"
        ∧ (env.enrich = none ∨ env.persistThrows = true)) := by
  rcases resolve_written_shape env q hq row hw with ⟨ai, henr, hp, rfl⟩ | ⟨hcond, _, rfl⟩
  · cases hs : env.signal with
    | some s => exact Or.inl ⟨rfl, rfl, by rw [henr]; rfl, hp⟩
    | none => exact Or.inr (Or.inl ⟨rfl, rfl, by rw [henr]; rfl, hp⟩)
  · exact Or.inr (Or.inr ⟨rfl, hcond⟩)

/-- Witness for C2 at the concrete both-providers-succeed request. -/
theorem C2_source_trichotomy_witness :
    (rowW.core.source = "Google Trends + AI"
        ∧ envW.signal.isSome = true ∧ envW.enrich.isSome = true
        ∧ envW.persistThrows = false)
      ∨ (rowW.core.source = "Trends AI"
        ∧ envW.signal = none ∧ envW.enrich.isSome = true
        ∧ envW.persistThrows = false)
      ∨ (rowW.core.source = "Fallback"
        ∧ (envW.enrich = none ∨ envW.persistThrows = true)) :=
  C2_source_trichotomy envW "minimalist decor" rowW rfl rfl

/-- A steered Gemini answer that contains no `pinterest_volume`. -/
def ai3 : AiData := { category := some "Home Decor" }

/-- A cache-missing request where Signal (volume 5000) and Enrichment both
succeed but Enrichment supplies no volume estimate. -/
def envC3 : Env :=
  { now := 1000, today := 0, store := [], q := some "decor"
  , signal := some sig1, enrich := some ai3
  , persistThrows := false, fbPersistThrows := false, fbRandom := fun _ => 0 }

/-- C3 counterexample: Signal contributes the only numeric volume estimate
(5000), yet the merged record's `search_volume` is 2500 — the sole estimate
averaged with zero, not "that tier's estimate unchanged". -/
theorem C3_counterexample :
    Option.map (fun sr => sr.core.search_volume) (resolve envC3).served
        = some 2500
      ∧ Option.map SignalResult.search_volume envC3.signal = some 5000
      ∧ (2500 : ℚ) ≠ 5000 := by
  have hserved : (resolve envC3).served
      = some { core := mergedCore "decor" envC3.signal ai3
             , last_updated := some envC3.now } := rfl
  rw [hserved]
  refine ⟨?_, rfl, by norm_num⟩
  simp only [Option.map_some']
  have hvol : ({ core := mergedCore "decor" envC3.signal ai3
               , last_updated := some envC3.now } : ServedRecord).core.search_volume
      = (mergeFinal envC3.signal ai3).search_volume := rfl
  rw [hvol]
  norm_num [mergeFinal, envC3, sig1, ai3, jsOrQ]

/-- C3 (corrected): with both tiers present the merged `search_volume` is
`(S.search_volume + (E.pinterest_volume or 0)) / 2` — a missing (or zero)
Enrichment volume is still averaged in as 0, so a lone Signal estimate comes
out halved rather than unchanged; when Signal is absent, the volume is
`E.search_volume` if present and nonzero, else 1000. -/
theorem C3_volume_averaged_with_zero (env : Env) (q : String) (ai : AiData)
    (hq : env.q = some q) (hne : q ≠ "")
    (hmiss : Option.filter (fun r => isFresh env.now r) (dbGet env.store q) = none)
    (henr : env.enrich = some ai) (hp : env.persistThrows = false) :
    (∀ s, env.signal = some s →
        Option.map (fun sr => sr.core.search_volume) (resolve env).served
            = some (((s.search_volume : ℚ) + jsOrQ ai.pinterest_volume 0) / 2)
          ∧ (ai.pinterest_volume = none →
              Option.map (fun sr => sr.core.search_volume) (resolve env).served
                = some ((s.search_volume : ℚ) / 2)))
      ∧ (env.signal = none →
          (∀ v, ai.search_volume = some v → v ≠ 0 →
              Option.map (fun sr => sr.core.search_volume) (resolve env).served
                = some v)
          ∧ ((ai.search_volume = none ∨ ai.search_volume = some 0) →
              Option.map (fun sr => sr.core.search_volume) (resolve env).served
                = some 1000)) := by
  have hserved : (resolve env).served
      = some { core := mergedCore q env.signal ai, last_updated := some env.now } := by
    rw [resolve_miss env q hq hne hmiss]
    unfold missFlow
    simp only [henr, hp, Bool.false_eq_true, if_false]
  have hmap : Option.map (fun sr => sr.core.search_volume) (resolve env).served
      = some ((mergeFinal env.signal ai).search_volume) := by
    rw [hserved]
    simp only [Option.map_some']
    rfl
  constructor
  · intro s hs
    rw [hmap, hs]
    constructor
    · rfl
    · intro hpv
      simp [mergeFinal, hpv, jsOrQ]
  · intro hs
    rw [hmap, hs]
    constructor
    · intro v hv hvne
      simp [mergeFinal, hv, jsOrQ, hvne]
    · intro hnone
      rcases hnone with h | h
      · simp [mergeFinal, h, jsOrQ]
      · simp [mergeFinal, h, jsOrQ]

/-- An unsteered Gemini answer carrying its own volume estimate. -/
def ai3b : AiData := { category := some "Tech", search_volume := some 3000 }

/-- A cache-missing request with Signal failed and Enrichment succeeding with
its own volume estimate. -/
def envC3b : Env :=
  { now := 1000, today := 0, store := [], q := some "decor"
  , signal := none, enrich := some ai3b
  , persistThrows := false, fbPersistThrows := false, fbRandom := fun _ => 0 }

/-- Witness for C3 at two concrete requests: Signal present with no
Enrichment volume (served 5000/2), and Signal absent with Enrichment volume
3000 (served unchanged). -/
theorem C3_volume_averaged_with_zero_witness :
    Option.map (fun sr => sr.core.search_volume) (resolve envC3).served
        = some (((sig1.search_volume : ℚ) + jsOrQ ai3.pinterest_volume 0) / 2)
      ∧ Option.map (fun sr => sr.core.search_volume) (resolve envC3).served
          = some ((sig1.search_volume : ℚ) / 2)
      ∧ Option.map (fun sr => sr.core.search_volume) (resolve envC3b).served
          = some 3000 := by
  refine ⟨?_, ?_, ?_⟩
  · exact ((C3_volume_averaged_with_zero envC3 "decor" ai3 rfl (by decide)
      (by decide) rfl rfl).1 sig1 rfl).1
  · exact (((C3_volume_averaged_with_zero envC3 "decor" ai3 rfl (by decide)
      (by decide) rfl rfl).1 sig1 rfl).2) rfl
  · exact ((C3_volume_averaged_with_zero envC3b "decor" ai3b rfl (by decide)
      (by decide) rfl rfl).2 rfl).1 3000 rfl (by norm_num)

/-- The fallback record's related keywords are deduplicated and within the
bound. -/
theorem fallbackCore_bounded (q : String) (t : Int) (r : Nat → Nat) :
    (fallbackCore q t r).related_keywords.Nodup
      ∧ (fallbackCore q t r).related_keywords.length ≤ 8 := by
  constructor
  · exact fallbackRelated_nodup q
  · simp [fallbackCore, fallbackRelated]

/-- The fallback branch always carries the five deterministic related
keywords, in both the served body and any written row. -/
theorem fallbackFlow_bounded (env : Env) (q : String) :
    (∀ sr, (fallbackFlow env q).served = some sr →
        sr.core.related_keywords.Nodup ∧ sr.core.related_keywords.length ≤ 8)
      ∧ (∀ row, (fallbackFlow env q).written = some row →
        row.core.related_keywords.Nodup ∧ row.core.related_keywords.length ≤ 8) := by
  unfold fallbackFlow
  cases hfb : env.fbPersistThrows with
  | true =>
    simp only [if_true]
    refine ⟨fun sr hsr => ?_, fun row hrow => by simp at hrow⟩
    simp only [Option.some.injEq] at hsr
    rw [← hsr]
    exact fallbackCore_bounded q env.today env.fbRandom
  | false =>
    simp only [Bool.false_eq_true, if_false]
    refine ⟨fun sr hsr => ?_, fun row hrow => ?_⟩
    · simp only [Option.some.injEq] at hsr
      rw [← hsr]
      exact fallbackCore_bounded q env.today env.fbRandom
    · simp only [Option.some.injEq] at hrow
      rw [← hrow]
      exact fallbackCore_bounded q env.today env.fbRandom

/-- A Gemini-only answer whose related list has 9 entries with a repeat. -/
def ai6 : AiData :=
  { category := some "Home"
  , related := some ["a", "a", "b", "c", "d", "e", "f", "g", "h"] }

/-- A cache-missing request with Signal failed and Enrichment returning the
oversized, duplicated related list. -/
def envC6 : Env :=
  { now := 1000, today := 0, store := [], q := some "decor"
  , signal := none, enrich := some ai6
  , persistThrows := false, fbPersistThrows := false, fbRandom := fun _ => 0 }

/-- C6 counterexample: in the Enrichment-only path the provider's related
list is served and persisted verbatim — here 9 entries with a duplicate,
breaking both the ≤ 8 bound and deduplication. -/
theorem C6_counterexample :
    Option.map (fun sr => sr.core.related_keywords) (resolve envC6).served
        = some ["a", "a", "b", "c", "d", "e", "f", "g", "h"]
      ∧ ¬(["a", "a", "b", "c", "d", "e", "f", "g", "h"] : List String).Nodup
      ∧ (["a", "a", "b", "c", "d", "e", "f", "g", "h"] : List String).length = 9 := by
  refine ⟨by decide, by decide, by decide⟩

/-- C6 (corrected): the ≤ 8 / no-duplicates bound holds on every cache-miss
resolution except the Enrichment-only merge: when Signal is present the merge
deduplicates and truncates to 8, and the fallback list is 5 distinct entries;
the Enrichment-only path instead passes the provider's list through
unchecked. -/
theorem C6_bounded_related (env : Env) (q : String)
    (hq : env.q = some q) (hne : q ≠ "")
    (hmiss : Option.filter (fun r => isFresh env.now r) (dbGet env.store q) = none)
    (hpath : env.signal.isSome = true ∨ env.enrich = none
      ∨ env.persistThrows = true) :
    (∀ sr, (resolve env).served = some sr →
        sr.core.related_keywords.Nodup ∧ sr.core.related_keywords.length ≤ 8)
      ∧ (∀ row, (resolve env).written = some row →
        row.core.related_keywords.Nodup ∧ row.core.related_keywords.length ≤ 8) := by
  rw [resolve_miss env q hq hne hmiss]
  unfold missFlow
  cases henr : env.enrich with
  | none => exact fallbackFlow_bounded env q
  | some ai =>
    cases hp : env.persistThrows with
    | true =>
      simp only [if_true]
      exact fallbackFlow_bounded env q
    | false =>
      simp only [Bool.false_eq_true, if_false]
      obtain ⟨s, hs⟩ : ∃ s, env.signal = some s := by
        rcases hpath with h | h | h
        · exact Option.isSome_iff_exists.mp h
        · rw [henr] at h
          cases h
        · rw [hp] at h
          cases h
      have hrel : (mergedCore q env.signal ai).related_keywords
          = List.take 8 (jsSetDedup (s.related ++ ai.pinterest_related.getD [])) := by
        have : (mergedCore q env.signal ai).related_keywords
            = (mergeFinal env.signal ai).related := rfl
        rw [this, hs]
        rfl
      have hbound : (mergedCore q env.signal ai).related_keywords.Nodup
          ∧ (mergedCore q env.signal ai).related_keywords.length ≤ 8 := by
        rw [hrel]
        exact ⟨(List.take_sublist _ _).nodup (jsSetDedup_nodup _),
          List.length_take_le _ _⟩
      constructor
      · intro sr hsr
        simp only [Option.some.injEq] at hsr
        rw [← hsr]
        exact hbound
      · intro row hrow
        simp only [Option.some.injEq] at hrow
        rw [← hrow]
        exact hbound

/-- Witness for C6 at the Signal-plus-failed-Enrichment request (fallback
path, related list bounded). -/
theorem C6_bounded_related_witness :
    (∀ sr, (resolve envC2).served = some sr →
        sr.core.related_keywords.Nodup ∧ sr.core.related_keywords.length ≤ 8)
      ∧ (∀ row, (resolve envC2).written = some row →
        row.core.related_keywords.Nodup ∧ row.core.related_keywords.length ≤ 8) :=
  C6_bounded_related envC2 "decor" rfl (by decide) (by decide) (Or.inl rfl)

/-- A cache-missing request where both providers succeed but the merge-path
persist throws (the fallback persist would succeed). -/
def envC8x : Env :=
  { now := 1000, today := 0, store := [], q := some "decor"
  , signal := some sig1, enrich := some aiW
  , persistThrows := true, fbPersistThrows := false, fbRandom := fun _ => 0 }

/-- C8 counterexample: after both providers succeeded and the merged record
(momentum 80) was computed, a failing merge-path store write makes the
handler serve the fallback record (momentum 72, source "Fallback") instead of
the computed one — the request does not fail, but a different record is
substituted. -/
theorem C8_counterexample :
    (resolve envC8x).status = 200
      ∧ Option.map (fun sr => sr.core.source) (resolve envC8x).served
          = some "Fallback"
      ∧ Option.map (fun sr => sr.core.momentum_score) (resolve envC8x).served
          = some 72
      ∧ (mergedCore "decor" envC8x.signal aiW).momentum_score = 80
      ∧ Option.map (fun r => r.core.source) (resolve envC8x).written
          = some "Fallback" := by
  refine ⟨by decide, by decide, by decide, ?_, by decide⟩
  have h : (mergedCore "decor" envC8x.signal aiW).momentum_score
      = ((sig1.momentum_score : Int) : ℚ) := rfl
  rw [h]
  norm_num [sig1]

/-- C8 (corrected): a failing store write never fails the request.  In the
fallback branch the write failure is caught and the already-synthesized
fallback record is still served with nothing persisted; in the merge branch a
write failure instead diverts to the fallback tier, so the fallback record —
not the computed merged record — is served. -/
theorem C8_fallback_served_despite_persist_failure (env : Env) (q : String)
    (hq : env.q = some q) (hne : q ≠ "")
    (hmiss : Option.filter (fun r => isFresh env.now r) (dbGet env.store q) = none)
    (hfb : env.fbPersistThrows = true)
    (hpath : env.enrich = none ∨ env.persistThrows = true) :
    resolve env = { status := 200, error := none
                  , served := some { core := fallbackCore q env.today env.fbRandom
                                   , last_updated := none }
                  , storeRead := true, signalCalled := true, enrichCalled := true
                  , written := none, finalStore := env.store } := by
  rw [resolve_miss env q hq hne hmiss]
  unfold missFlow
  rcases hpath with h | h
  · simp only [h]
    unfold fallbackFlow
    simp only [hfb, if_true]
  · cases henr : env.enrich with
    | none =>
      unfold fallbackFlow
      simp only [hfb, if_true]
    | some ai =>
      simp only [h, if_true]
      unfold fallbackFlow
      simp only [hfb, if_true]

/-- A cache-missing request with both providers failed and a failing
fallback-path store write. -/
def envC8 : Env :=
  { now := 1000, today := 0, store := [], q := some "decor", signal := none
  , enrich := none, persistThrows := false, fbPersistThrows := true
  , fbRandom := fun _ => 0 }

/-- Witness for C8 at the concrete failing-fallback-persist request. -/
theorem C8_fallback_served_despite_persist_failure_witness :
    resolve envC8 = { status := 200, error := none
                    , served := some { core := fallbackCore "decor" envC8.today
                                                 envC8.fbRandom
                                     , last_updated := none }
                    , storeRead := true, signalCalled := true, enrichCalled := true
                    , written := none, finalStore := envC8.store } :=
  C8_fallback_served_despite_persist_failure envC8 "decor" rfl (by decide)
    (by decide) rfl (Or.inl rfl)

/-- A request for "Decor" while the store holds a fresh entry under
"decor". -/
def env9 : Env :=
  { now := 1000, today := 0, store := [row4], q := some "Decor", signal := none
  , enrich := none, persistThrows := false, fbPersistThrows := false
  , fbRandom := fun _ => 0 }

/-- C9 counterexample: "decor" has a fresh cache entry (100 s old), yet the
query "Decor" — differing only in letter case — misses it, invokes both
provider tiers, and persists a second entry under the raw key "Decor": the
two queries neither resolve to nor overwrite the same cache entry. -/
theorem C9_counterexample :
    dbGet env9.store "decor" = some row4
      ∧ env9.now - row4.last_updated < 600
      ∧ (resolve env9).signalCalled = true
      ∧ (resolve env9).enrichCalled = true
      ∧ (dbGet (resolve env9).finalStore "Decor").isSome = true
      ∧ (dbGet (resolve env9).finalStore "decor").isSome = true := by
  refine ⟨by decide, by decide, by decide, by decide, by decide, by decide⟩

/-- C9 (corrected): the resolution applies no normalization at all — the raw
query string, untrimmed and case-preserved, is the exact store key of every
row the pipeline writes (and of the cache lookup), so queries differing in
whitespace or case use distinct entries. -/
theorem C9_raw_query_is_key (env : Env) (q : String) (row : StoredRecord)
    (hq : env.q = some q) (hw : (resolve env).written = some row) :
    row.core.keyword = q := by
  rcases resolve_written_shape env q hq row hw with ⟨ai, _, _, rfl⟩ | ⟨_, _, rfl⟩
  · rfl
  · rfl

/-- The row the fallback path persists for `envC2`. -/
def rowC9 : StoredRecord :=
  { core := fallbackCore "decor" envC2.today envC2.fbRandom
  , last_updated := envC2.now }

/-- Witness for C9 at the concrete fallback-writing request. -/
theorem C9_raw_query_is_key_witness : rowC9.core.keyword = "decor" :=
  C9_raw_query_is_key envC2 "decor" rowC9 rfl rfl
